import Mathlib

/-!
Verification development for the poolAndSaunaController firmware.

The embedding models the firmware of `poolAndSaunaController.ino` (version
0.06, the revision the later v0.09 variant shares all control logic with):
the global variables become fields of a `Sys` record, every C function
becomes a pure state transformer on `Sys`, and C `double` values are
modelled as exact rationals `ℚ`.  The manual-relay subsystem that only
exists in the v0.09 revision is modelled separately in namespace `V009`.

Modelled from the spec: the `FiniteStateMachine` library (a dependency, not
not among the sources of this repository) dispatches callbacks;
`FSM.transitionTo` runs the exit hook of the current state, switches the
current state, runs the enter hook of the new state and resets the
time-in-state counter, and `FSM.update` invokes the update hook of the
current state.  `timeInCurrentState()` is the `timeInState` field, in milliseconds.
Likewise the relay driver (`NCD4Relay`) is a capability "set relay N
on/off/toggle": it is modelled by the `Relays` record plus an event log so
that "the relay is switched exactly once" is expressible.
-/

/-! ## Constants from the firmware -/

def MILLISECONDS_TO_MINUTES : Nat := 60000

def MILLISECONDS_TO_SECONDS : Nat := 1000

/-- 10 seconds for the init cycle, so sensor samples get stabilized (seconds). -/
def initTimeout : Nat := 10

/-- a state has to have a minimum duration time: one minute (minutes). -/
def minimumTimeInState : Nat := 1

def EEPROM_VERSION : Nat := 139

/-- sentinel for "no valid temperature sample". -/
def INVALID : ℚ := -1

def temperatureMargin : ℚ := 0.25

def useFahrenheit : Bool := false

def STATE_INIT : String := "Initializing"

def STATE_OFF : String := "Off"

def STATE_IDLE : String := "Idle"

def STATE_ON : String := "On"

/-! ## C `atoi` semantics (used by setTarget/setCalibration and String.toInt) -/

/-- Accumulate leading decimal digits, stopping at the first non-digit. -/
def atoiDigits : List Char → Int → Int
  | c :: cs, acc =>
    if c.isDigit then atoiDigits cs (acc * 10 + ((c.toNat : Int) - 48)) else acc
  | [], acc => acc

/-- C `atoi`: skip leading whitespace, optional sign, then leading digits;
yields 0 when no digits are present. -/
def atoiChars : List Char → Int
  | [] => 0
  | c :: cs =>
    if c = ' ' ∨ c = '\t' ∨ c = '\n' ∨ c = '\r' ∨ c = '\x0b' ∨ c = '\x0c' then
      atoiChars cs
    else if c = '-' then -(atoiDigits cs 0)
    else if c = '+' then atoiDigits cs 0
    else atoiDigits (c :: cs) 0

def atoi (s : String) : Int := atoiChars s.data

/-! ## Wiring `String` helpers -/

def toLowerChars (cs : List Char) : List Char := cs.map Char.toLower

/-- `String.equalsIgnoreCase` of the Wiring `String` class (ASCII case folding). -/
def equalsIgnoreCase (a b : String) : Bool :=
  toLowerChars a.data == toLowerChars b.data

def eqIgnoreCaseChars (a b : List Char) : Bool :=
  toLowerChars a == toLowerChars b

def startsWithChars : List Char → List Char → Bool
  | _, [] => true
  | [], _ :: _ => false
  | c :: cs, p :: ps => c == p && startsWithChars cs ps

/-! ## Relay bank -/

structure Relays where
  r1 : Bool
  r2 : Bool
  r3 : Bool
  r4 : Bool
  deriving DecidableEq

def Relays.set (r : Relays) (relay : Int) (value : Bool) : Relays :=
  if relay = 1 then { r with r1 := value }
  else if relay = 2 then { r with r2 := value }
  else if relay = 3 then { r with r3 := value }
  else if relay = 4 then { r with r4 := value }
  else r

def Relays.flip (r : Relays) (relay : Int) : Relays :=
  if relay = 1 then { r with r1 := !r.r1 }
  else if relay = 2 then { r with r2 := !r.r2 }
  else if relay = 3 then { r with r3 := !r.r3 }
  else if relay = 4 then { r with r4 := !r.r4 }
  else r

/-- One physical actuation of a relay, recorded so that "turned off exactly
once" is expressible. -/
inductive RelayEvent where
  | turnedOn (relay : Int)
  | turnedOff (relay : Int)
  deriving DecidableEq

/-! ## EEPROM record -/

structure EepromMemoryStructure where
  version : Nat
  temperatureTarget : ℚ
  temperatureCalibration : ℚ
  lastState : Nat
  temperatureTarget2 : ℚ
  temperatureCalibration2 : ℚ
  lastState2 : Nat
  deriving DecidableEq

def convertIntToLastState (lastSt : Nat) : String :=
  if lastSt = 1 then STATE_IDLE else STATE_OFF

def convertLastStateToInt (lastSt : String) : Nat :=
  if lastSt = STATE_IDLE ∨ lastSt = STATE_ON then 1 else 0

/-! ## FSM states and the global program state -/

inductive FSMState where
  | initState
  | offState
  | idleState
  | onState
  deriving DecidableEq

/-- The string the firmware stores in the cloud variable `state` when the
FSM is in the given state (set by the enter functions). -/
def stateName : FSMState → String
  | .initState => STATE_INIT
  | .offState => STATE_OFF
  | .idleState => STATE_IDLE
  | .onState => STATE_ON

/-- The mutable globals of the firmware relevant to loop 1 (FSM1), plus the
settings globals of loop 2 that the shared EEPROM record carries, the relay
bank, the relay actuation log and the EEPROM cell (`none` = never written). -/
structure Sys where
  fsm : FSMState
  timeInState : Nat
  state : String
  lastState : String
  temperatureCurrent : ℚ
  temperatureTarget : ℚ
  temperatureCalibration : ℚ
  state2 : String
  lastState2 : String
  temperatureCurrent2 : ℚ
  temperatureTarget2 : ℚ
  temperatureCalibration2 : ℚ
  relays : Relays
  relayLog : List RelayEvent
  eeprom : Option EepromMemoryStructure
  deriving DecidableEq

/-! ## EEPROM functions -/

/-- The record `saveSettingsInEeprom` assembles from the globals. -/
def currentRecord (s : Sys) : EepromMemoryStructure where
  version := EEPROM_VERSION
  temperatureTarget := s.temperatureTarget
  temperatureCalibration := s.temperatureCalibration
  lastState := convertLastStateToInt s.lastState
  temperatureTarget2 := s.temperatureTarget2
  temperatureCalibration2 := s.temperatureCalibration2
  lastState2 := convertLastStateToInt s.lastState2

def saveSettingsInEeprom (s : Sys) : Sys :=
  { s with eeprom := some (currentRecord s) }

/-- `readFromEeprom`: restore the settings when the version tag matches;
an EEPROM that was never written reads back version 255 and is ignored
(modelled by the `none` case). -/
def readFromEeprom (s : Sys) : Sys :=
  match s.eeprom with
  | none => s
  | some myObj =>
    if myObj.version = EEPROM_VERSION then
      { s with
        temperatureTarget := myObj.temperatureTarget
        temperatureCalibration := myObj.temperatureCalibration
        lastState := convertIntToLastState myObj.lastState
        temperatureTarget2 := myObj.temperatureTarget2
        temperatureCalibration2 := myObj.temperatureCalibration2
        lastState2 := convertIntToLastState myObj.lastState2 }
    else s

/-! ## Helper functions (setState, relay actions) -/

def setState (s : Sys) (newState : String) (setLastState : Bool) : Sys :=
  let s1 := { s with state := newState }
  let s2 := if setLastState then { s1 with lastState := newState } else s1
  saveSettingsInEeprom s2

def turnOnRelay (relay : Int) (s : Sys) : Sys :=
  { s with
    relays := s.relays.set relay true
    relayLog := s.relayLog ++ [RelayEvent.turnedOn relay] }

def turnOffRelay (relay : Int) (s : Sys) : Sys :=
  { s with
    relays := s.relays.set relay false
    relayLog := s.relayLog ++ [RelayEvent.turnedOff relay] }

/-! ## FSM1 enter/update/exit functions -/

def initEnterFunction (s : Sys) : Sys := setState s STATE_INIT false

def offEnterFunction (s : Sys) : Sys := setState s STATE_OFF true

def idleEnterFunction (s : Sys) : Sys := setState s STATE_IDLE true

def onEnterFunction (s : Sys) : Sys := turnOnRelay 1 (setState s STATE_ON true)

def initExitFunction (s : Sys) : Sys := s

def offExitFunction (s : Sys) : Sys := s

def idleExitFunction (s : Sys) : Sys := s

def onExitFunction (s : Sys) : Sys := turnOffRelay 1 s

def enterFunction : FSMState → Sys → Sys
  | .initState, s => initEnterFunction s
  | .offState, s => offEnterFunction s
  | .idleState, s => idleEnterFunction s
  | .onState, s => onEnterFunction s

def exitFunction : FSMState → Sys → Sys
  | .initState, s => initExitFunction s
  | .offState, s => offExitFunction s
  | .idleState, s => idleExitFunction s
  | .onState, s => onExitFunction s

/-- `FSM.transitionTo`: exit hook of the current state, switch state and
reset the time-in-state counter, enter hook of the new state. -/
def transitionTo (s : Sys) (target : FSMState) : Sys :=
  enterFunction target { exitFunction s.fsm s with fsm := target, timeInState := 0 }

def initUpdateFunction (s : Sys) : Sys :=
  if s.timeInState < initTimeout * MILLISECONDS_TO_SECONDS then s
  else if s.lastState = STATE_IDLE then transitionTo s FSMState.idleState
  else transitionTo s FSMState.offState

def offUpdateFunction (s : Sys) : Sys := s

def idleUpdateFunction (s : Sys) : Sys :=
  if s.timeInState < minimumTimeInState * MILLISECONDS_TO_MINUTES then s
  else if s.temperatureCurrent ≠ INVALID ∧
      s.temperatureCurrent ≤ s.temperatureTarget - temperatureMargin then
    transitionTo s FSMState.onState
  else s

def onUpdateFunction (s : Sys) : Sys :=
  if s.timeInState < minimumTimeInState * MILLISECONDS_TO_MINUTES then s
  else if s.temperatureCurrent ≠ INVALID ∧
      s.temperatureCurrent ≥ s.temperatureTarget + temperatureMargin then
    transitionTo s FSMState.idleState
  else s

/-- The call `stateMachine1.update()`: dispatch to the update hook of the current state. -/
def fsmUpdate (s : Sys) : Sys :=
  match s.fsm with
  | .initState => initUpdateFunction s
  | .offState => offUpdateFunction s
  | .idleState => idleUpdateFunction s
  | .onState => onUpdateFunction s

/-! ## Cloud functions -/

def setOnOff (s : Sys) (parameter : String) : Sys × Int :=
  if equalsIgnoreCase parameter ("on") = true then
    (if s.state = STATE_OFF then transitionTo s FSMState.idleState else s, 0)
  else if equalsIgnoreCase parameter ("off") = true then
    (if s.state = STATE_IDLE ∨ s.state = STATE_ON then
        transitionTo s FSMState.offState
      else s, 0)
  else (s, -1)

def setTarget (s : Sys) (parameter : String) : Sys × Int :=
  let localValue : ℚ := (atoi parameter : ℚ)
  if 0 ≤ localValue ∧ localValue ≤ 125 then
    (saveSettingsInEeprom { s with temperatureTarget := localValue }, 0)
  else (s, -1)

def setCalibration (s : Sys) (parameter : String) : Sys × Int :=
  let localValue : ℚ := (atoi parameter : ℚ)
  if -50 ≤ localValue ∧ localValue ≤ 50 then
    let s1 := { s with temperatureCurrent := s.temperatureCurrent - s.temperatureCalibration }
    let s2 := { s1 with temperatureCalibration := localValue }
    let s3 := { s2 with temperatureCurrent := s2.temperatureCurrent + s2.temperatureCalibration }
    (saveSettingsInEeprom s3, 0)
  else (s, -1)

/-! ## Sensor reading (getTemp) -/

/-- One raw read of the DS18B20: the value `getTemperature()` returned and
whether `crcCheck()` passes for that read. -/
structure SensorAttempt where
  value : ℚ
  crcOk : Bool
  deriving DecidableEq

def convertToFahrenheit (celsius : ℚ) : ℚ := celsius * 9 / 5 + 32

/-- The `while (!crcCheck() && dsAttempts < 4)` retry loop of `getTemp`,
with the loop bound `dsAttempts < 4` rendered as the structurally
decreasing retry budget `4 - dsAttempts`.  `att i` is the result of the
i-th call of `getTemperature()`. -/
def crcRetryAux (att : Nat → SensorAttempt) : Nat → Nat → SensorAttempt → SensorAttempt
  | 0, _, cur => cur
  | budget + 1, dsAttempts, cur =>
    if cur.crcOk then cur
    else crcRetryAux att budget (dsAttempts + 1) (att (dsAttempts + 1))

/-- `getTemp`, as a function of the sensor behaviour during this cycle:
`searchResult` is what `ds18b20.search()` returns (the body runs on
`false`), `att` the successive raw reads. -/
def getTemp (searchResult : Bool) (att : Nat → SensorAttempt) (s : Sys) : Sys :=
  if searchResult then s
  else
    let finalRead := crcRetryAux att 4 0 (att 0)
    let temperatureLocal :=
      if useFahrenheit then convertToFahrenheit finalRead.value else finalRead.value
    let temperatureLocal := temperatureLocal + s.temperatureCalibration
    if temperatureLocal ≠ INVALID ∧ finalRead.crcOk = true then
      { s with temperatureCurrent := temperatureLocal }
    else s

/-! ## Boot -/

/-- The compiled-in initial values of the globals; `e` is whatever the
(persistent) EEPROM cell holds across the reboot. -/
def freshSys (e : Option EepromMemoryStructure) : Sys where
  fsm := FSMState.initState
  timeInState := 0
  state := STATE_INIT
  lastState := ""
  temperatureCurrent := INVALID
  temperatureTarget := 30
  temperatureCalibration := 0
  state2 := STATE_INIT
  lastState2 := ""
  temperatureCurrent2 := INVALID
  temperatureTarget2 := 37
  temperatureCalibration2 := 0
  relays := { r1 := false, r2 := false, r3 := false, r4 := false }
  relayLog := []
  eeprom := e

/-- State at `t` milliseconds after boot, still in Init: `setup()` turns
all relays off (they already are in `freshSys`) and calls `readFromEeprom`. -/
def bootSys (e : Option EepromMemoryStructure) (t : Nat) : Sys :=
  { readFromEeprom (freshSys e) with timeInState := t }

/-! ## Manual relay control of the v0.09 revision (`V009`) -/

namespace V009

/-- The relay bank plus the per-relay auto-off timers of the v0.09
revision: `timerOnRelayN` is the `elapsedMillis` counter and
`turnOffRelayNAfterTime` the armed auto-off duration (0 = not armed). -/
structure RelaySys where
  relays : Relays
  timerOnRelay1 : Nat
  timerOnRelay2 : Nat
  timerOnRelay3 : Nat
  timerOnRelay4 : Nat
  turnOffRelay1AfterTime : Int
  turnOffRelay2AfterTime : Int
  turnOffRelay3AfterTime : Int
  turnOffRelay4AfterTime : Int
  deriving DecidableEq

/-- State after `setup()`: `turnOffAllRelays` and no armed timers. -/
def relayBoot : RelaySys where
  relays := { r1 := false, r2 := false, r3 := false, r4 := false }
  timerOnRelay1 := 0
  timerOnRelay2 := 0
  timerOnRelay3 := 0
  timerOnRelay4 := 0
  turnOffRelay1AfterTime := 0
  turnOffRelay2AfterTime := 0
  turnOffRelay3AfterTime := 0
  turnOffRelay4AfterTime := 0

def firstCharIsNumber1to4 (string : List Char) : Bool :=
  startsWithChars string (("1").data) || startsWithChars string (("2").data) ||
    startsWithChars string (("3").data) || startsWithChars string (("4").data)

/-- One `if (firstCharIsNumber1to4(tempCommand))` block of `triggerRelay`:
parse `substring(0,1).toInt()` and drop the first character. -/
def parseRelayDigit (tempCommand : List Char) : Int × List Char :=
  if firstCharIsNumber1to4 tempCommand then
    (atoiChars (tempCommand.take 1), tempCommand.drop 1)
  else (0, tempCommand)

def turnOnRelayForSomeMinutes (rs : RelaySys) (relay : Int) (timeOn : Int) : RelaySys :=
  if relay = 1 then
    { rs with
      relays := rs.relays.set 1 true
      timerOnRelay1 := 0
      turnOffRelay1AfterTime := timeOn * (MILLISECONDS_TO_MINUTES : Int) }
  else if relay = 2 then
    { rs with
      relays := rs.relays.set 2 true
      timerOnRelay2 := 0
      turnOffRelay2AfterTime := timeOn * (MILLISECONDS_TO_MINUTES : Int) }
  else if relay = 3 then
    { rs with
      relays := rs.relays.set 3 true
      timerOnRelay3 := 0
      turnOffRelay3AfterTime := timeOn * (MILLISECONDS_TO_MINUTES : Int) }
  else if relay = 4 then
    { rs with
      relays := rs.relays.set 4 true
      timerOnRelay4 := 0
      turnOffRelay4AfterTime := timeOn * (MILLISECONDS_TO_MINUTES : Int) }
  else rs

/-- The body of the `for (i = 1; i <= 4; i++)` loop of `triggerRelay` for
one parsed relay number: relays 1 and 2 are reserved for the pool and
sauna system (`relayNumber > 2` guard). -/
def relayCommandAction (tempCommand : List Char) (timeOn : Int)
    (acc : RelaySys × Int) (relayNumber : Int) : RelaySys × Int :=
  if relayNumber > 2 then
    let a1 :=
      if eqIgnoreCaseChars tempCommand (("on").data) then
        let rs := { acc.1 with relays := acc.1.relays.set relayNumber true }
        let rs := if timeOn ≠ 0 then turnOnRelayForSomeMinutes rs relayNumber timeOn else rs
        (rs, (1 : Int))
      else acc
    let a2 :=
      if eqIgnoreCaseChars tempCommand (("off").data) then
        ({ a1.1 with relays := a1.1.relays.set relayNumber false }, (1 : Int))
      else a1
    let a3 :=
      if eqIgnoreCaseChars tempCommand (("toggle").data) then
        ({ a2.1 with relays := a2.1.relays.flip relayNumber }, (1 : Int))
      else a2
    let a4 :=
      if eqIgnoreCaseChars tempCommand (("momentary").data) then
        ({ a3.1 with relays := (a3.1.relays.set relayNumber true).set relayNumber false }, (1 : Int))
      else a3
    a4
  else acc

/-- `triggerRelay` of the v0.09 revision.  Returns 1 if the command was
accepted, 0 if not. -/
def triggerRelay (rs : RelaySys) (command : String) : RelaySys × Int :=
  let tempCommand := toLowerChars command.data
  let timeOn : Int := 0
  let (relayNumber1, tempCommand) := parseRelayDigit tempCommand
  let (relayNumber2, tempCommand) := parseRelayDigit tempCommand
  let (relayNumber3, tempCommand) := parseRelayDigit tempCommand
  let (relayNumber4, tempCommand) := parseRelayDigit tempCommand
  let (timeOn, tempCommand) :=
    if startsWithChars tempCommand (("on").data) then
      (atoiChars (tempCommand.drop 2), ("on").data)
    else (timeOn, tempCommand)
  let relayNumbers := [relayNumber1, relayNumber2, relayNumber3, relayNumber4]
  relayNumbers.foldl (relayCommandAction tempCommand timeOn) (rs, 0)

/-- The periodic auto-off sweep `turnOffRelay()` run from `quickLoop`. -/
def turnOffRelay (rs : RelaySys) : RelaySys :=
  let rs :=
    if rs.turnOffRelay1AfterTime ≠ 0 ∧ (rs.timerOnRelay1 : Int) > rs.turnOffRelay1AfterTime then
      { rs with turnOffRelay1AfterTime := 0, relays := rs.relays.set 1 false }
    else rs
  let rs :=
    if rs.turnOffRelay2AfterTime ≠ 0 ∧ (rs.timerOnRelay2 : Int) > rs.turnOffRelay2AfterTime then
      { rs with turnOffRelay2AfterTime := 0, relays := rs.relays.set 2 false }
    else rs
  let rs :=
    if rs.turnOffRelay3AfterTime ≠ 0 ∧ (rs.timerOnRelay3 : Int) > rs.turnOffRelay3AfterTime then
      { rs with turnOffRelay3AfterTime := 0, relays := rs.relays.set 3 false }
    else rs
  let rs :=
    if rs.turnOffRelay4AfterTime ≠ 0 ∧ (rs.timerOnRelay4 : Int) > rs.turnOffRelay4AfterTime then
      { rs with turnOffRelay4AfterTime := 0, relays := rs.relays.set 4 false }
    else rs
  rs

/-- Passage of `ms` milliseconds: every `elapsedMillis` counter advances. -/
def advanceTimers (rs : RelaySys) (ms : Nat) : RelaySys :=
  { rs with
    timerOnRelay1 := rs.timerOnRelay1 + ms
    timerOnRelay2 := rs.timerOnRelay2 + ms
    timerOnRelay3 := rs.timerOnRelay3 + ms
    timerOnRelay4 := rs.timerOnRelay4 + ms }

end V009

/-! ## Concrete demonstration states used by the witnesses -/

/-- A loop sitting in Idle for one minute with a valid 20-degree sample
and the default 30-degree target. -/
def sDemoIdle : Sys :=
  { freshSys none with
    fsm := FSMState.idleState
    state := STATE_IDLE
    lastState := STATE_IDLE
    timeInState := 60000
    temperatureCurrent := 20 }

/-- A loop sitting in On for one minute with a valid 31-degree sample,
its relay energized. -/
def sDemoOn : Sys :=
  { freshSys none with
    fsm := FSMState.onState
    state := STATE_ON
    lastState := STATE_ON
    timeInState := 60000
    temperatureCurrent := 31
    relays := { r1 := true, r2 := false, r3 := false, r4 := false } }

/-- A loop in Off. -/
def sDemoOff : Sys :=
  { freshSys none with
    fsm := FSMState.offState
    state := STATE_OFF
    lastState := STATE_OFF }

/-- A sensor cycle in which every raw read fails the CRC check. -/
def badAtt : Nat → SensorAttempt := fun _ => { value := 99, crcOk := false }

/-- A prior-run state persisted as Idle, used for the resume witness. -/
def rDemoIdle : EepromMemoryStructure := currentRecord sDemoIdle

/-- The relay state right after `triggerRelay("34on5")` from boot: relays
3 and 4 energized with a 5-minute (300000 ms) auto-off deadline armed. -/
def armed34on5 : V009.RelaySys where
  relays := { r1 := false, r2 := false, r3 := true, r4 := true }
  timerOnRelay1 := 0
  timerOnRelay2 := 0
  timerOnRelay3 := 0
  timerOnRelay4 := 0
  turnOffRelay1AfterTime := 0
  turnOffRelay2AfterTime := 0
  turnOffRelay3AfterTime := 300000
  turnOffRelay4AfterTime := 300000

/-! ## Helper lemmas about the FSM driver -/

theorem transitionTo_fsm (s : Sys) (t : FSMState) : (transitionTo s t).fsm = t := by
  cases t <;>
    simp [transitionTo, enterFunction, initEnterFunction, offEnterFunction,
      idleEnterFunction, onEnterFunction, setState, saveSettingsInEeprom, turnOnRelay]

/-! ## Claim theorems -/

/-- Claim C1: a ControlLoop in Idle transitions to On on a tick exactly when
the one-minute minimum dwell has elapsed and the current temperature is
valid (not the INVALID sentinel) and at most `target - margin`; in
particular, never before the dwell timer elapses. -/
theorem idleUpdate_transition_iff (s : Sys) (h : s.fsm = FSMState.idleState) :
    ((fsmUpdate s).fsm = FSMState.onState ↔
      (minimumTimeInState * MILLISECONDS_TO_MINUTES ≤ s.timeInState ∧
       s.temperatureCurrent ≠ INVALID ∧
       s.temperatureCurrent ≤ s.temperatureTarget - temperatureMargin)) := by
  have hu : fsmUpdate s = idleUpdateFunction s := by
    unfold fsmUpdate
    rw [h]
  rw [hu]
  unfold idleUpdateFunction
  by_cases ht : s.timeInState < minimumTimeInState * MILLISECONDS_TO_MINUTES
  · rw [if_pos ht]
    refine iff_of_false ?_ ?_
    · rw [h]
      simp
    · rintro ⟨hle, -⟩
      omega
  · rw [if_neg ht]
    by_cases hc : s.temperatureCurrent ≠ INVALID ∧
        s.temperatureCurrent ≤ s.temperatureTarget - temperatureMargin
    · rw [if_pos hc]
      exact iff_of_true (transitionTo_fsm s FSMState.onState) ⟨Nat.le_of_not_lt ht, hc⟩
    · rw [if_neg hc]
      refine iff_of_false ?_ ?_
      · rw [h]
        simp
      · rintro ⟨-, h1, h2⟩
        exact hc ⟨h1, h2⟩

theorem idleUpdate_transition_iff_witness :
    sDemoIdle.fsm = FSMState.idleState ∧
    ((fsmUpdate sDemoIdle).fsm = FSMState.onState ↔
      (minimumTimeInState * MILLISECONDS_TO_MINUTES ≤ sDemoIdle.timeInState ∧
       sDemoIdle.temperatureCurrent ≠ INVALID ∧
       sDemoIdle.temperatureCurrent ≤ sDemoIdle.temperatureTarget - temperatureMargin)) :=
  ⟨rfl, idleUpdate_transition_iff sDemoIdle rfl⟩

theorem transitionTo_from_on_log (s : Sys) (h : s.fsm = FSMState.onState) (t : FSMState)
    (ht : t = FSMState.idleState ∨ t = FSMState.offState) :
    (transitionTo s t).relayLog = s.relayLog ++ [RelayEvent.turnedOff 1] ∧
    (transitionTo s t).relays.r1 = false := by
  rcases ht with h1 | h1 <;> subst h1 <;>
    simp [transitionTo, h, exitFunction, onExitFunction, turnOffRelay, enterFunction,
      idleEnterFunction, offEnterFunction, setState, saveSettingsInEeprom, Relays.set]

/-- Claim C2: a ControlLoop in On transitions back to Idle on a tick exactly
when the minimum dwell has elapsed and the temperature is valid and at
least `target + margin`; and on both exits from On (to Idle by temperature,
to Off by the external command) the relay is turned off exactly once,
unconditionally: the actuation log grows by exactly one turned-off event
for relay 1. -/
theorem onState_exit_spec (s : Sys) (h : s.fsm = FSMState.onState) (hs : s.state = STATE_ON) :
    ((fsmUpdate s).fsm = FSMState.idleState ↔
      (minimumTimeInState * MILLISECONDS_TO_MINUTES ≤ s.timeInState ∧
       s.temperatureCurrent ≠ INVALID ∧
       s.temperatureCurrent ≥ s.temperatureTarget + temperatureMargin)) ∧
    ((fsmUpdate s).fsm = FSMState.idleState →
      (fsmUpdate s).relayLog = s.relayLog ++ [RelayEvent.turnedOff 1] ∧
      (fsmUpdate s).relays.r1 = false) ∧
    ((setOnOff s ("off")).1.fsm = FSMState.offState ∧
     (setOnOff s ("off")).1.relayLog = s.relayLog ++ [RelayEvent.turnedOff 1] ∧
     (setOnOff s ("off")).1.relays.r1 = false) := by
  have hu : fsmUpdate s = onUpdateFunction s := by
    unfold fsmUpdate
    rw [h]
  have hig1 : equalsIgnoreCase ("off") ("on") = false := by decide
  have hig2 : equalsIgnoreCase ("off") ("off") = true := by decide
  have hso : (setOnOff s ("off")).1 = transitionTo s FSMState.offState := by
    simp [setOnOff, hig1, hig2, hs, STATE_ON, STATE_IDLE]
  refine ⟨?_, ?_, ?_⟩
  · rw [hu]
    unfold onUpdateFunction
    by_cases ht : s.timeInState < minimumTimeInState * MILLISECONDS_TO_MINUTES
    · rw [if_pos ht]
      refine iff_of_false ?_ ?_
      · rw [h]
        simp
      · rintro ⟨hle, -⟩
        omega
    · rw [if_neg ht]
      by_cases hc : s.temperatureCurrent ≠ INVALID ∧
          s.temperatureCurrent ≥ s.temperatureTarget + temperatureMargin
      · rw [if_pos hc]
        exact iff_of_true (transitionTo_fsm s FSMState.idleState) ⟨Nat.le_of_not_lt ht, hc⟩
      · rw [if_neg hc]
        refine iff_of_false ?_ ?_
        · rw [h]
          simp
        · rintro ⟨-, h1, h2⟩
          exact hc ⟨h1, h2⟩
  · intro hidle
    rw [hu] at hidle ⊢
    unfold onUpdateFunction at hidle ⊢
    by_cases ht : s.timeInState < minimumTimeInState * MILLISECONDS_TO_MINUTES
    · rw [if_pos ht] at hidle
      rw [h] at hidle
      simp at hidle
    · rw [if_neg ht] at hidle ⊢
      by_cases hc : s.temperatureCurrent ≠ INVALID ∧
          s.temperatureCurrent ≥ s.temperatureTarget + temperatureMargin
      · rw [if_pos hc]
        exact transitionTo_from_on_log s h _ (Or.inl rfl)
      · rw [if_neg hc] at hidle
        rw [h] at hidle
        simp at hidle
  · rw [hso]
    exact ⟨transitionTo_fsm s FSMState.offState,
      transitionTo_from_on_log s h _ (Or.inr rfl)⟩

theorem onState_exit_spec_witness :
    (setOnOff sDemoOn ("off")).1.fsm = FSMState.offState ∧
    (setOnOff sDemoOn ("off")).1.relayLog = sDemoOn.relayLog ++ [RelayEvent.turnedOff 1] ∧
    (setOnOff sDemoOn ("off")).1.relays.r1 = false :=
  (onState_exit_spec sDemoOn rfl rfl).2.2

theorem readFromEeprom_fsm (s : Sys) : (readFromEeprom s).fsm = s.fsm := by
  rcases h : s.eeprom with _ | obj <;> simp [readFromEeprom, h]
  split <;> simp

/-- Claim C3: while the 10-second stabilization timeout has not elapsed a
loop stays in Init; once it has elapsed it transitions to Idle exactly when
the persisted record is valid and its last-resume byte is 1 — the byte the
firmware persists exactly for a loop whose last state was Idle or On — and
to Off in every other case, including blank storage. -/
theorem init_resume_spec (r : EepromMemoryStructure) (t : Nat) :
    (t < initTimeout * MILLISECONDS_TO_SECONDS →
      (fsmUpdate (bootSys (some r) t)).fsm = FSMState.initState ∧
      (fsmUpdate (bootSys none t)).fsm = FSMState.initState) ∧
    (initTimeout * MILLISECONDS_TO_SECONDS ≤ t →
      ((fsmUpdate (bootSys (some r) t)).fsm =
        if r.version = EEPROM_VERSION ∧ r.lastState = 1 then FSMState.idleState
        else FSMState.offState) ∧
      (fsmUpdate (bootSys none t)).fsm = FSMState.offState) ∧
    (∀ p : Sys, (currentRecord p).lastState = 1 ↔
      (p.lastState = STATE_IDLE ∨ p.lastState = STATE_ON)) := by
  have hfsm : ∀ e, (bootSys e t).fsm = FSMState.initState := by
    intro e
    simp [bootSys, readFromEeprom_fsm, freshSys]
  have htime : ∀ e, (bootSys e t).timeInState = t := by
    intro e
    simp [bootSys]
  have hup : ∀ e, fsmUpdate (bootSys e t) = initUpdateFunction (bootSys e t) := by
    intro e
    unfold fsmUpdate
    rw [hfsm e]
  have hlsome : (bootSys (some r) t).lastState =
      if r.version = EEPROM_VERSION then convertIntToLastState r.lastState else "" := by
    simp only [bootSys, readFromEeprom, freshSys]
    split <;> simp
  have hlnone : (bootSys none t).lastState = "" := by
    simp [bootSys, readFromEeprom, freshSys]
  refine ⟨?_, ?_, ?_⟩
  · intro hlt
    constructor
    · rw [hup (some r)]
      unfold initUpdateFunction
      rw [htime (some r), if_pos hlt, hfsm (some r)]
    · rw [hup none]
      unfold initUpdateFunction
      rw [htime none, if_pos hlt, hfsm none]
  · intro hge
    have hnlt : ¬ t < initTimeout * MILLISECONDS_TO_SECONDS := by omega
    constructor
    · rw [hup (some r)]
      unfold initUpdateFunction
      rw [htime (some r), if_neg hnlt, hlsome]
      by_cases hv : r.version = EEPROM_VERSION
      · rw [if_pos hv]
        by_cases hbb : r.lastState = 1
        · simp [convertIntToLastState, hbb, hv, transitionTo_fsm]
        · simp [convertIntToLastState, hbb, hv, STATE_OFF, STATE_IDLE, transitionTo_fsm]
      · rw [if_neg hv]
        simp [STATE_IDLE, hv, transitionTo_fsm]
    · rw [hup none]
      unfold initUpdateFunction
      rw [htime none, if_neg hnlt, hlnone]
      simp [STATE_IDLE, transitionTo_fsm]
  · intro p
    by_cases hc : p.lastState = STATE_IDLE ∨ p.lastState = STATE_ON
    · simp [currentRecord, convertLastStateToInt, hc]
    · simp [currentRecord, convertLastStateToInt, hc]

theorem init_resume_spec_witness :
    (fsmUpdate (bootSys (some rDemoIdle) (initTimeout * MILLISECONDS_TO_SECONDS))).fsm
        = FSMState.idleState ∧
    (fsmUpdate (bootSys none (initTimeout * MILLISECONDS_TO_SECONDS))).fsm
        = FSMState.offState ∧
    (fsmUpdate (bootSys (some rDemoIdle) 0)).fsm = FSMState.initState := by
  refine ⟨?_, ?_, ?_⟩
  · have h := (init_resume_spec rDemoIdle (initTimeout * MILLISECONDS_TO_SECONDS)).2.1
      (le_refl _)
    have hc : rDemoIdle.version = EEPROM_VERSION ∧ rDemoIdle.lastState = 1 := by decide
    rw [h.1, if_pos hc]
  · exact ((init_resume_spec rDemoIdle (initTimeout * MILLISECONDS_TO_SECONDS)).2.1
      (le_refl _)).2
  · exact ((init_resume_spec rDemoIdle 0).1 (by decide)).1

theorem stateName_off_iff (f : FSMState) : stateName f = STATE_OFF ↔ f = FSMState.offState := by
  cases f <;> simp [stateName, STATE_INIT, STATE_OFF, STATE_IDLE, STATE_ON]

theorem stateName_idle_iff (f : FSMState) : stateName f = STATE_IDLE ↔ f = FSMState.idleState := by
  cases f <;> simp [stateName, STATE_INIT, STATE_OFF, STATE_IDLE, STATE_ON]

theorem stateName_on_iff (f : FSMState) : stateName f = STATE_ON ↔ f = FSMState.onState := by
  cases f <;> simp [stateName, STATE_INIT, STATE_OFF, STATE_IDLE, STATE_ON]

/-- Claim C4: `setOnOff` with a case-insensitive "on" transitions to Idle
exactly when the loop is Off, with "off" transitions to Off exactly when
the loop is Idle or On (for every `timeInState`, so not gated by the dwell
timer), is a no-op returning 0 in every other state, and returns -1
without any state change for any other parameter string. -/
theorem setOnOff_spec (s : Sys) (p : String) (hc : s.state = stateName s.fsm) :
    (equalsIgnoreCase p ("on") = true →
      (setOnOff s p).2 = 0 ∧
      (s.fsm = FSMState.offState →
        (setOnOff s p).1 = transitionTo s FSMState.idleState ∧
        (setOnOff s p).1.fsm = FSMState.idleState) ∧
      (s.fsm ≠ FSMState.offState → (setOnOff s p).1 = s)) ∧
    (equalsIgnoreCase p ("off") = true →
      (setOnOff s p).2 = 0 ∧
      ((s.fsm = FSMState.idleState ∨ s.fsm = FSMState.onState) →
        (setOnOff s p).1 = transitionTo s FSMState.offState ∧
        (setOnOff s p).1.fsm = FSMState.offState) ∧
      (¬(s.fsm = FSMState.idleState ∨ s.fsm = FSMState.onState) →
        (setOnOff s p).1 = s)) ∧
    (equalsIgnoreCase p ("on") = false → equalsIgnoreCase p ("off") = false →
      setOnOff s p = (s, -1)) := by
  have hsOff : s.state = STATE_OFF ↔ s.fsm = FSMState.offState := by
    rw [hc]
    exact stateName_off_iff s.fsm
  have hsIdle : s.state = STATE_IDLE ↔ s.fsm = FSMState.idleState := by
    rw [hc]
    exact stateName_idle_iff s.fsm
  have hsOn : s.state = STATE_ON ↔ s.fsm = FSMState.onState := by
    rw [hc]
    exact stateName_on_iff s.fsm
  refine ⟨?_, ?_, ?_⟩
  · intro hon
    refine ⟨by simp [setOnOff, hon], ?_, ?_⟩
    · intro hf
      have hst : s.state = STATE_OFF := hsOff.mpr hf
      exact ⟨by simp [setOnOff, hon, hst], by simp [setOnOff, hon, hst, transitionTo_fsm]⟩
    · intro hf
      have hst : ¬ s.state = STATE_OFF := fun hx => hf (hsOff.mp hx)
      simp [setOnOff, hon, hst]
  · intro hoff
    have hnon : equalsIgnoreCase p ("on") = false := by
      rcases hb : equalsIgnoreCase p ("on") with _ | _
      · rfl
      · exfalso
        unfold equalsIgnoreCase at hb hoff
        have e1 := eq_of_beq hb
        have e2 := eq_of_beq hoff
        exact absurd (e1.symm.trans e2) (by decide)
    refine ⟨by simp [setOnOff, hnon, hoff], ?_, ?_⟩
    · intro hf
      have hst : s.state = STATE_IDLE ∨ s.state = STATE_ON := by
        rcases hf with hf | hf
        · exact Or.inl (hsIdle.mpr hf)
        · exact Or.inr (hsOn.mpr hf)
      exact ⟨by simp [setOnOff, hnon, hoff, hst],
        by simp [setOnOff, hnon, hoff, hst, transitionTo_fsm]⟩
    · intro hf
      have hst : ¬ (s.state = STATE_IDLE ∨ s.state = STATE_ON) := by
        rintro (hx | hx)
        · exact hf (Or.inl (hsIdle.mp hx))
        · exact hf (Or.inr (hsOn.mp hx))
      simp [setOnOff, hnon, hoff, hst]
  · intro hno hnoff
    simp [setOnOff, hno, hnoff]

theorem setOnOff_spec_witness :
    (setOnOff sDemoOff ("ON")).2 = 0 ∧
    (setOnOff sDemoOff ("ON")).1 = transitionTo sDemoOff FSMState.idleState ∧
    (setOnOff sDemoOff ("ON")).1.fsm = FSMState.idleState ∧
    setOnOff sDemoOff ("banana") = (sDemoOff, -1) := by
  have h := setOnOff_spec sDemoOff ("ON") rfl
  have h2 := setOnOff_spec sDemoOff ("banana") rfl
  have hon : equalsIgnoreCase ("ON") ("on") = true := by decide
  exact ⟨(h.1 hon).1, ((h.1 hon).2.1 rfl).1, ((h.1 hon).2.1 rfl).2,
    h2.2.2 (by decide) (by decide)⟩

theorem save_persists (s : Sys) :
    (saveSettingsInEeprom s).eeprom = some (currentRecord (saveSettingsInEeprom s)) := by
  simp [saveSettingsInEeprom, currentRecord]

theorem setTarget_accept (s : Sys) (p : String) (h0 : 0 ≤ atoi p) (h125 : atoi p ≤ 125) :
    setTarget s p =
      (saveSettingsInEeprom { s with temperatureTarget := (atoi p : ℚ) }, 0) := by
  have hq : (0 : ℚ) ≤ (atoi p : ℚ) ∧ (atoi p : ℚ) ≤ 125 :=
    ⟨by exact_mod_cast h0, by exact_mod_cast h125⟩
  simp only [setTarget]
  rw [if_pos hq]

theorem setTarget_reject (s : Sys) (p : String) (h : ¬(0 ≤ atoi p ∧ atoi p ≤ 125)) :
    setTarget s p = (s, -1) := by
  simp only [setTarget]
  rw [if_neg]
  intro hq
  exact h ⟨by exact_mod_cast hq.1, by exact_mod_cast hq.2⟩

theorem setCalibration_accept (s : Sys) (p : String) (h1 : -50 ≤ atoi p) (h2 : atoi p ≤ 50) :
    setCalibration s p =
      (saveSettingsInEeprom
        { s with
          temperatureCurrent := s.temperatureCurrent - s.temperatureCalibration + (atoi p : ℚ)
          temperatureCalibration := (atoi p : ℚ) }, 0) := by
  have hq : (-50 : ℚ) ≤ (atoi p : ℚ) ∧ (atoi p : ℚ) ≤ 50 :=
    ⟨by exact_mod_cast h1, by exact_mod_cast h2⟩
  simp only [setCalibration]
  rw [if_pos hq]

theorem setCalibration_reject (s : Sys) (p : String) (h : ¬(-50 ≤ atoi p ∧ atoi p ≤ 50)) :
    setCalibration s p = (s, -1) := by
  simp only [setCalibration]
  rw [if_neg]
  intro hq
  exact h ⟨by exact_mod_cast hq.1, by exact_mod_cast hq.2⟩

/-- Claim C5: a parsed target in [0,125] is stored, the settings record is
persisted and 0 is returned; a parsed calibration in [-50,50] likewise; a
parsed value outside the range yields the distinct error result -1 and the
whole state — target, calibration, current reading, persisted record — is
left exactly unchanged. -/
theorem setParams_range_spec (s : Sys) (p : String) :
    (0 ≤ atoi p → atoi p ≤ 125 →
      (setTarget s p).1.temperatureTarget = (atoi p : ℚ) ∧
      (setTarget s p).1.eeprom = some (currentRecord (setTarget s p).1) ∧
      (setTarget s p).2 = 0) ∧
    (¬(0 ≤ atoi p ∧ atoi p ≤ 125) → setTarget s p = (s, -1)) ∧
    (-50 ≤ atoi p → atoi p ≤ 50 →
      (setCalibration s p).1.temperatureCalibration = (atoi p : ℚ) ∧
      (setCalibration s p).1.eeprom = some (currentRecord (setCalibration s p).1) ∧
      (setCalibration s p).2 = 0) ∧
    (¬(-50 ≤ atoi p ∧ atoi p ≤ 50) → setCalibration s p = (s, -1)) := by
  refine ⟨?_, setTarget_reject s p, ?_, setCalibration_reject s p⟩
  · intro h0 h125
    rw [setTarget_accept s p h0 h125]
    exact ⟨by simp [saveSettingsInEeprom], save_persists _, rfl⟩
  · intro h1 h2
    rw [setCalibration_accept s p h1 h2]
    exact ⟨by simp [saveSettingsInEeprom], save_persists _, rfl⟩

theorem setParams_range_spec_witness :
    (setTarget sDemoOff ("100")).2 = 0 ∧
    setTarget sDemoOff ("200") = (sDemoOff, -1) ∧
    (setCalibration sDemoOff ("-5")).2 = 0 ∧
    setCalibration sDemoOff ("-51") = (sDemoOff, -1) :=
  ⟨((setParams_range_spec sDemoOff ("100")).1 (by decide) (by decide)).2.2,
    (setParams_range_spec sDemoOff ("200")).2.1 (by decide),
    ((setParams_range_spec sDemoOff ("-5")).2.2.1 (by decide) (by decide)).2.2,
    (setParams_range_spec sDemoOff ("-51")).2.2.2 (by decide)⟩

/-- Claim C10: a parameter string whose leading characters contain no
parseable integer (such as "abc" or "") parses as 0 under C `atoi`, which
lies inside both accepted ranges, so `setTarget` and `setCalibration`
accept it: the value is set to 0, the record is persisted and 0 is
returned instead of a rejection; fractional digits are truncated. -/
theorem atoi_zero_accepted (s : Sys) (p : String) (h : atoi p = 0) :
    (setTarget s p).2 = 0 ∧
    (setTarget s p).1.temperatureTarget = 0 ∧
    (setTarget s p).1.eeprom = some (currentRecord (setTarget s p).1) ∧
    (setCalibration s p).2 = 0 ∧
    (setCalibration s p).1.temperatureCalibration = 0 ∧
    atoi ("abc") = 0 ∧ atoi ("") = 0 ∧ atoi ("12.7") = 12 := by
  have e1 := setTarget_accept s p (by omega) (by omega)
  have e2 := setCalibration_accept s p (by omega) (by omega)
  refine ⟨by rw [e1], ?_, ?_, by rw [e2], ?_, by decide, by decide, by decide⟩
  · rw [e1]
    simp [saveSettingsInEeprom, h]
  · rw [e1]
    exact save_persists _
  · rw [e2]
    simp [saveSettingsInEeprom, h]

theorem atoi_zero_accepted_witness :
    (setTarget sDemoOff ("abc")).2 = 0 ∧
    (setTarget sDemoOff ("abc")).1.temperatureTarget = 0 :=
  ⟨(atoi_zero_accepted sDemoOff ("abc") (by decide)).1,
    (atoi_zero_accepted sDemoOff ("abc") (by decide)).2.1⟩

theorem crcRetryAux_step (att : Nat → SensorAttempt) (b ds : Nat) (cur : SensorAttempt)
    (h : cur.crcOk = false) :
    crcRetryAux att (b + 1) ds cur = crcRetryAux att b (ds + 1) (att (ds + 1)) := by
  simp [crcRetryAux, h]

theorem getTemp_allFail (searchResult : Bool) (att : Nat → SensorAttempt) (s : Sys)
    (h : ∀ i, i ≤ 4 → (att i).crcOk = false) :
    getTemp searchResult att s = s := by
  have efinal : crcRetryAux att 4 0 (att 0) = att 4 := by
    show crcRetryAux att (3 + 1) 0 (att 0) = att 4
    rw [crcRetryAux_step att 3 0 _ (h 0 (by omega))]
    show crcRetryAux att (2 + 1) 1 (att 1) = att 4
    rw [crcRetryAux_step att 2 1 _ (h 1 (by omega))]
    show crcRetryAux att (1 + 1) 2 (att 2) = att 4
    rw [crcRetryAux_step att 1 2 _ (h 2 (by omega))]
    show crcRetryAux att (0 + 1) 3 (att 3) = att 4
    rw [crcRetryAux_step att 0 3 _ (h 3 (by omega))]
    rfl
  unfold getTemp
  by_cases hs : searchResult
  · rw [if_pos hs]
  · rw [if_neg hs]
    simp [efinal, h 4 (by omega)]

/-- Claim C6 (amended): a sensor-read cycle whose raw reads all fail the
CRC check leaves the whole state — in particular the stored current
temperature — unchanged; and temperature-dependent transitions are skipped
exactly while the stored temperature is still the INVALID sentinel (no
valid sample was ever taken).  With a prior valid sample retained, the FSM
continues to evaluate transitions against that stale value. -/
theorem sensor_failure_retains (searchResult : Bool) (att : Nat → SensorAttempt) (s : Sys)
    (h : ∀ i, i ≤ 4 → (att i).crcOk = false) :
    (getTemp searchResult att s).temperatureCurrent = s.temperatureCurrent ∧
    (s.temperatureCurrent = INVALID →
      idleUpdateFunction (getTemp searchResult att s) = getTemp searchResult att s ∧
      onUpdateFunction (getTemp searchResult att s) = getTemp searchResult att s) := by
  have e := getTemp_allFail searchResult att s h
  rw [e]
  refine ⟨rfl, ?_⟩
  intro hinv
  constructor
  · simp [idleUpdateFunction, hinv]
  · simp [onUpdateFunction, hinv]

theorem sensor_failure_retains_witness :
    (getTemp false badAtt (freshSys none)).temperatureCurrent
        = (freshSys none).temperatureCurrent ∧
    idleUpdateFunction (getTemp false badAtt (freshSys none))
        = getTemp false badAtt (freshSys none) :=
  ⟨(sensor_failure_retains false badAtt (freshSys none) (fun _ _ => rfl)).1,
    ((sensor_failure_retains false badAtt (freshSys none) (fun _ _ => rfl)).2 rfl).1⟩

/-- Claim C6 counterexample: in a loop that holds a prior valid sample
(20 degrees, target 30, dwell elapsed), a sensor cycle in which all 4 retry
attempts fail the CRC check leaves the temperature at the stale value, and
the very next tick still fires the temperature-dependent Idle-to-On
transition — before any later valid sample has arrived — refuting the
claim that no temperature-dependent FSM transition fires until a later
valid sample arrives. -/
theorem sensor_failure_counterexample :
    (getTemp false badAtt sDemoIdle).temperatureCurrent = sDemoIdle.temperatureCurrent ∧
    (fsmUpdate (getTemp false badAtt sDemoIdle)).fsm = FSMState.onState := by
  have e := getTemp_allFail false badAtt sDemoIdle (fun _ _ => rfl)
  rw [e]
  refine ⟨rfl, ?_⟩
  have ht : ¬ sDemoIdle.timeInState < minimumTimeInState * MILLISECONDS_TO_MINUTES := by
    decide
  have hcond : sDemoIdle.temperatureCurrent ≠ INVALID ∧
      sDemoIdle.temperatureCurrent ≤ sDemoIdle.temperatureTarget - temperatureMargin := by
    constructor
    · show (20 : ℚ) ≠ INVALID
      norm_num [INVALID]
    · show (20 : ℚ) ≤ (30 : ℚ) - temperatureMargin
      norm_num [temperatureMargin]
  rw [show fsmUpdate sDemoIdle = idleUpdateFunction sDemoIdle from rfl]
  unfold idleUpdateFunction
  rw [if_neg ht, if_pos hcond, transitionTo_fsm]

theorem convert_roundtrip (l : String) :
    convertLastStateToInt (convertIntToLastState (convertLastStateToInt l))
      = convertLastStateToInt l := by
  by_cases h : l = STATE_IDLE ∨ l = STATE_ON
  · have h1 : convertLastStateToInt l = 1 := by simp [convertLastStateToInt, h]
    rw [h1]
    decide
  · have h0 : convertLastStateToInt l = 0 := by simp [convertLastStateToInt, h]
    rw [h0]
    decide

/-- Claim C7: a save followed by a load restores an equal record: every
field read back — both targets, both calibrations, and the decoded
last-resume-state of each loop — equals the value that was saved, and
re-assembling the record from the loaded state yields exactly the record
that was saved. -/
theorem save_load_roundtrip (s t : Sys) :
    (readFromEeprom { t with eeprom := (saveSettingsInEeprom s).eeprom }).temperatureTarget
      = s.temperatureTarget ∧
    (readFromEeprom { t with eeprom := (saveSettingsInEeprom s).eeprom }).temperatureCalibration
      = s.temperatureCalibration ∧
    (readFromEeprom { t with eeprom := (saveSettingsInEeprom s).eeprom }).temperatureTarget2
      = s.temperatureTarget2 ∧
    (readFromEeprom { t with eeprom := (saveSettingsInEeprom s).eeprom }).temperatureCalibration2
      = s.temperatureCalibration2 ∧
    (readFromEeprom { t with eeprom := (saveSettingsInEeprom s).eeprom }).lastState
      = convertIntToLastState (currentRecord s).lastState ∧
    (readFromEeprom { t with eeprom := (saveSettingsInEeprom s).eeprom }).lastState2
      = convertIntToLastState (currentRecord s).lastState2 ∧
    currentRecord (readFromEeprom { t with eeprom := (saveSettingsInEeprom s).eeprom })
      = currentRecord s := by
  have hread : readFromEeprom { t with eeprom := (saveSettingsInEeprom s).eeprom } =
      { t with
        eeprom := some (currentRecord s)
        temperatureTarget := (currentRecord s).temperatureTarget
        temperatureCalibration := (currentRecord s).temperatureCalibration
        lastState := convertIntToLastState (currentRecord s).lastState
        temperatureTarget2 := (currentRecord s).temperatureTarget2
        temperatureCalibration2 := (currentRecord s).temperatureCalibration2
        lastState2 := convertIntToLastState (currentRecord s).lastState2 } := rfl
  rw [hread]
  refine ⟨by simp [currentRecord], by simp [currentRecord], by simp [currentRecord],
    by simp [currentRecord], by simp, by simp, ?_⟩
  simp [currentRecord, convert_roundtrip]

theorem transitionTo_temperatureCurrent (s : Sys) (t : FSMState) :
    (transitionTo s t).temperatureCurrent = s.temperatureCurrent := by
  cases t <;> cases hf : s.fsm <;>
    simp [transitionTo, hf, enterFunction, exitFunction, initEnterFunction, offEnterFunction,
      idleEnterFunction, onEnterFunction, initExitFunction, offExitFunction, idleExitFunction,
      onExitFunction, setState, saveSettingsInEeprom, turnOnRelay, turnOffRelay]

/-- Claim C8 (amended): the stored current temperature is mutated only by
the sensor-sampling path and by `setCalibration`, which rolls the old
offset out of the last-known reading and applies the new offset to it
immediately; `setTarget`, `setOnOff` and the FSM tick leave it unchanged,
and it equals the INVALID sentinel at boot, before any valid sample. -/
theorem temperature_frame_spec (s : Sys) (p : String)
    (e : Option EepromMemoryStructure) (t : Nat) :
    (setTarget s p).1.temperatureCurrent = s.temperatureCurrent ∧
    (setOnOff s p).1.temperatureCurrent = s.temperatureCurrent ∧
    (fsmUpdate s).temperatureCurrent = s.temperatureCurrent ∧
    (-50 ≤ atoi p → atoi p ≤ 50 →
      (setCalibration s p).1.temperatureCurrent
        = s.temperatureCurrent - s.temperatureCalibration + (atoi p : ℚ)) ∧
    (bootSys e t).temperatureCurrent = INVALID := by
  refine ⟨?_, ?_, ?_, ?_, ?_⟩
  · simp only [setTarget]
    split <;> simp [saveSettingsInEeprom]
  · simp only [setOnOff]
    split_ifs <;> simp [transitionTo_temperatureCurrent]
  · cases hf : s.fsm <;>
      simp only [fsmUpdate, hf, initUpdateFunction, offUpdateFunction, idleUpdateFunction,
        onUpdateFunction] <;>
      split_ifs <;> simp [transitionTo_temperatureCurrent]
  · intro h1 h2
    rw [setCalibration_accept s p h1 h2]
    simp [saveSettingsInEeprom]
  · rcases e with _ | r
    · simp [bootSys, readFromEeprom, freshSys]
    · simp only [bootSys, readFromEeprom, freshSys]
      split <;> rfl

theorem temperature_frame_spec_witness :
    (setTarget sDemoIdle ("50")).1.temperatureCurrent = sDemoIdle.temperatureCurrent ∧
    (setCalibration sDemoIdle ("5")).1.temperatureCurrent
      = sDemoIdle.temperatureCurrent - sDemoIdle.temperatureCalibration + (atoi ("5") : ℚ) :=
  ⟨(temperature_frame_spec sDemoIdle ("50") none 0).1,
    (temperature_frame_spec sDemoIdle ("5") none 0).2.2.2.1 (by decide) (by decide)⟩

/-- Claim C8 counterexample: `setCalibration` is not a frame-preserving
parameter setter for the current temperature reading: on a loop whose
last-known reading is 20 with calibration 0, `setCalibration("5")` changes
the stored reading to 25, refuting "every other operation, including
parameter setters, leaves the current temperature reading unchanged". -/
theorem setCalibration_mutates_current :
    (setCalibration sDemoIdle ("5")).1.temperatureCurrent
      ≠ sDemoIdle.temperatureCurrent := by
  have ha : atoi ("5") = 5 := by decide
  have e := setCalibration_accept sDemoIdle ("5") (by decide) (by decide)
  rw [e]
  simp only [saveSettingsInEeprom]
  show ¬ (sDemoIdle.temperatureCurrent - sDemoIdle.temperatureCalibration + (atoi ("5") : ℚ)
      = sDemoIdle.temperatureCurrent)
  rw [ha]
  show ¬ ((20 : ℚ) - 0 + ((5 : Int) : ℚ) = 20)
  norm_num

/-- Claim C9: `triggerRelay("34on5")` turns relays 3 and 4 on immediately
and arms a 5-minute auto-off for both; the periodic sweep turns both off
once 5 minutes have elapsed and not before; `triggerRelay("1on")` actuates
no relay and reports the command as not accepted (returns 0), because
relays 1 and 2 are reserved for the control loops. -/
theorem trigger_relay_spec (t : Nat) :
    V009.triggerRelay V009.relayBoot ("34on5") = (armed34on5, 1) ∧
    armed34on5.relays.r3 = true ∧ armed34on5.relays.r4 = true ∧
    (5 * MILLISECONDS_TO_MINUTES < t →
      (V009.turnOffRelay (V009.advanceTimers armed34on5 t)).relays.r3 = false ∧
      (V009.turnOffRelay (V009.advanceTimers armed34on5 t)).relays.r4 = false) ∧
    (t ≤ 5 * MILLISECONDS_TO_MINUTES →
      (V009.turnOffRelay (V009.advanceTimers armed34on5 t)).relays.r3 = true ∧
      (V009.turnOffRelay (V009.advanceTimers armed34on5 t)).relays.r4 = true) ∧
    V009.triggerRelay V009.relayBoot ("1on") = (V009.relayBoot, 0) := by
  refine ⟨by decide, rfl, rfl, ?_, ?_, by decide⟩
  · intro hlt
    have h300 : (300000 : Nat) < t := by
      have h5 : 5 * MILLISECONDS_TO_MINUTES = 300000 := by decide
      omega
    have hgt : (300000 : Int) < (t : Int) := by exact_mod_cast h300
    simp [V009.advanceTimers, V009.turnOffRelay, armed34on5, Relays.set, hgt]
  · intro hle
    have h300 : t ≤ (300000 : Nat) := by
      have h5 : 5 * MILLISECONDS_TO_MINUTES = 300000 := by decide
      omega
    have hng : ¬ (300000 : Int) < (t : Int) := by exact_mod_cast not_lt.mpr h300
    simp [V009.advanceTimers, V009.turnOffRelay, armed34on5, Relays.set, hng]

theorem trigger_relay_spec_witness :
    V009.triggerRelay V009.relayBoot ("34on5") = (armed34on5, 1) ∧
    (V009.turnOffRelay (V009.advanceTimers armed34on5 300001)).relays.r3 = false ∧
    (V009.turnOffRelay (V009.advanceTimers armed34on5 300000)).relays.r3 = true ∧
    V009.triggerRelay V009.relayBoot ("1on") = (V009.relayBoot, 0) :=
  ⟨(trigger_relay_spec 0).1,
    ((trigger_relay_spec 300001).2.2.2.1 (by decide)).1,
    ((trigger_relay_spec 300000).2.2.2.2.1 (by decide)).1,
    (trigger_relay_spec 0).2.2.2.2.2⟩
